import Mathlib

/-!
Verification of the finance-fetcher orchestration core.

Shallow embedding of the Go sources: machine `int` values become `Int`,
`float64` arithmetic is modelled over `ℚ` (every numeric input considered
here is exactly representable, so the rational model agrees with the IEEE
double computation at those inputs), Go's `(value, error)` pairs become
`ℚ × Option GoError`, and strings are Lean `String`s manipulated through
their character lists.
-/

namespace FinanceFetcher

/-- The error taxonomy from `ErrorType` in the fetcher package:
network, rate_limit, server, client, validation, timeout, unknown. -/
inductive ErrorType where
  | network
  | rateLimit
  | server
  | client
  | validation
  | timeout
  | unknown
deriving DecidableEq, Repr

/-- `FetchError` from the fetcher package: a tagged error with a retryable
flag, an optional status code (0 when unset) and a message.  The Go struct's
`Cause` field is carried by the `GoError.fetchErr` constructor below. -/
structure FetchError where
  type : ErrorType
  retryable : Bool
  statusCode : Int
  message : String
deriving DecidableEq, Repr

/-- A Go `error` value as this code base produces them: `nil` (used only
for an absent `Cause`), a `*FetchError` (with its wrapped `Cause`, possibly
nil), a plain error built by `fmt.Errorf`/`errors.New` without `%w`, or a
`fmt.Errorf` wrapping with `%w` of an inner error. -/
inductive GoError where
  | nil
  | fetchErr (e : FetchError) (cause : GoError)
  | errorf (msg : String)
  | wrap (msg : String) (cause : GoError)
deriving DecidableEq, Repr

/-- Whether an error is, or (transitively, via `errors.As` unwrapping)
wraps, a tagged `FetchError`. -/
def GoError.isOrWrapsFetchError : GoError → Bool
  | .nil => false
  | .fetchErr _ _ => true
  | .errorf _ => false
  | .wrap _ cause => cause.isOrWrapsFetchError

/-- `NewNetworkError` from the fetcher package. -/
def NewNetworkError (cause : GoError) : GoError :=
  .fetchErr ⟨.network, true, 0, "network request failed"⟩ cause

/-- `NewRateLimitError` from the fetcher package. -/
def NewRateLimitError (statusCode : Int) : FetchError :=
  ⟨.rateLimit, true, statusCode, "rate limit exceeded"⟩

/-- `NewServerError` from the fetcher package. -/
def NewServerError (statusCode : Int) : FetchError :=
  ⟨.server, true, statusCode, "server returned an error"⟩

/-- `NewClientError` from the fetcher package. -/
def NewClientError (statusCode : Int) (message : String) : FetchError :=
  ⟨.client, false, statusCode, message⟩

/-- `NewValidationError` from the fetcher package. -/
def NewValidationError (message : String) : GoError :=
  .fetchErr ⟨.validation, false, 0, message⟩ .nil

/-- `NewTimeoutError` from the fetcher package. -/
def NewTimeoutError (cause : GoError) : GoError :=
  .fetchErr ⟨.timeout, true, 0, "request timed out"⟩ cause

/-- `ClassifyHTTPError` from the fetcher package: the switch on the status
code, in source order (429, then >= 500, then >= 400, then default). -/
def ClassifyHTTPError (statusCode : Int) : FetchError :=
  if statusCode = 429 then
    NewRateLimitError statusCode
  else if statusCode ≥ 500 then
    NewServerError statusCode
  else if statusCode ≥ 400 then
    NewClientError statusCode ("client error: HTTP " ++ toString statusCode)
  else
    ⟨.unknown, false, statusCode, "unexpected status code: " ++ toString statusCode⟩

/-- The classification table exactly as the specification words it:
429 to RateLimit(retryable); >= 500 to Server(retryable); 400..499 except
429 to Client(not retryable); anything else to Unknown(not retryable).
Only the tag and the retryable flag are specified. -/
def classifySpec (statusCode : Int) : ErrorType × Bool :=
  if statusCode = 429 then (.rateLimit, true)
  else if statusCode ≥ 500 then (.server, true)
  else if 400 ≤ statusCode ∧ statusCode ≤ 499 then (.client, false)
  else (.unknown, false)

/-- `defaultRetryCount` from the HTTP client wrapper. -/
def defaultRetryCount : Nat := 3

/-- `defaultRetryWaitTime` from the HTTP client wrapper, in seconds. -/
def defaultRetryWaitTimeSeconds : Nat := 1

/-- `defaultRetryMaxWaitTime` from the HTTP client wrapper, in seconds. -/
def defaultRetryMaxWaitTimeSeconds : Nat := 10

/-- `retryCondition` from the HTTP client wrapper.  `transportErr` is
whether the resty call returned a non-nil error; otherwise the decision
looks only at the response status code, in source order. -/
def retryCondition (transportErr : Bool) (statusCode : Int) : Bool :=
  if transportErr then true
  else if statusCode ≥ 500 then true
  else if statusCode = 429 then true
  else if statusCode = 408 then true
  else if statusCode ≥ 400 ∧ statusCode < 500 then false
  else false

/-- The retry decision exactly as the specification words it: retry on any
transport-level error, on 5xx, on 429, and on 408; never otherwise. -/
def retrySpec (transportErr : Bool) (statusCode : Int) : Bool :=
  transportErr || statusCode ≥ 500 || statusCode = 429 || statusCode = 408

/-- Value of a list of decimal digit characters, most significant first. -/
def digitsToNat (ds : List Char) : Nat :=
  ds.foldl (fun acc c => acc * 10 + (c.toNat - 48)) 0

/-- `big.Int.SetString(s, 10)` from `math/big`: an optional sign followed by
one or more decimal digits; anything else fails. -/
def bigIntSetString10 (s : String) : Option Int :=
  match s.data with
  | '-' :: r =>
      if r ≠ [] ∧ r.all Char.isDigit then some (-(digitsToNat r : Int)) else none
  | '+' :: r =>
      if r ≠ [] ∧ r.all Char.isDigit then some (digitsToNat r : Int) else none
  | r =>
      if r ≠ [] ∧ r.all Char.isDigit then some (digitsToNat r : Int) else none

/-- The decimal-literal fragment of `strconv.ParseFloat(s, 64)`: optional
sign, integer digits, optional fractional part.  Returns the signed
mantissa together with the number of fractional digits, so the parsed
value is `mantissa / 10 ^ fracDigits`.  The exponent, hex and Inf/NaN
forms accepted by Go do not occur among the inputs this development
considers. -/
def parseDecimal (s : String) : Option (Int × Nat) :=
  let chars := s.data
  let sign : Int := if chars.head? = some '-' then -1 else 1
  let rest := if chars.head? = some '-' ∨ chars.head? = some '+' then chars.tail else chars
  let intPart := rest.takeWhile Char.isDigit
  let after := rest.dropWhile Char.isDigit
  if after = [] then
    if intPart = [] then none
    else some (sign * (digitsToNat intPart : Int), 0)
  else if after.head? = some '.' then
    let fracPart := after.tail
    if fracPart.all Char.isDigit ∧ (intPart ≠ [] ∨ fracPart ≠ []) then
      some (sign * ((digitsToNat intPart : Int) * 10 ^ fracPart.length +
        (digitsToNat fracPart : Int)), fracPart.length)
    else none
  else none

/-- `strconv.ParseFloat(s, 64)` modelled over `ℚ`.  Every literal the
claims mention is exactly representable as a double, so the rational
result agrees with Go's double computation at those inputs. -/
def parseFloatQ (s : String) : Option ℚ :=
  (parseDecimal s).map fun p => (p.1 : ℚ) / 10 ^ p.2

/-- The outcome of one resty HTTP round trip, as the fetchers observe it:
either a transport-level error (non-nil `err` from `Get`), or a response
with a status code and the decoded body fields the fetcher reads. -/
inductive CallOutcome (β : Type) where
  | transportErr (msg : String)
  | response (statusCode : Int) (body : β)

/-- `Response.IsSuccess` from resty: status code strictly between 199 and
300. -/
def isSuccess (statusCode : Int) : Bool :=
  statusCode > 199 && statusCode < 300

/-! ## Wallet balance fetcher (etherscan package)

The wallet fetcher makes two sequential calls.  The only body fields the
code reads are the `ethusd` string of the price response and the `result`
string of the balance response, so each call's decoded body is modelled as
that one string (a field absent from the JSON decodes to `""`). -/

/-- `weiPerEth` from the etherscan package: `1e18`. -/
def weiPerEth : ℚ := 10 ^ 18

/-- `WalletFetcher.fetchEthPrice`: the processing of the price call. -/
def WalletFetcher.fetchEthPrice (call : CallOutcome String) : ℚ × Option GoError :=
  match call with
  | .transportErr m => (0, some (.wrap "failed to fetch ETH price" (.errorf m)))
  | .response status ethusd =>
      if ¬ isSuccess status then
        (0, some (.errorf ("etherscan API returned status " ++ toString status)))
      else if ethusd = "" then
        (0, some (.errorf "ETH price not found in response"))
      else
        match parseFloatQ ethusd with
        | none => (0, some (.wrap "failed to parse ETH price" (.errorf "strconv.ParseFloat: parsing")))
        | some price => (price, none)

/-- `WalletFetcher.Fetch`: price call first, then the balance call; the
balance string is parsed as an arbitrary-precision integer, divided by
`10^18` and multiplied by the price. -/
def WalletFetcher.Fetch (priceCall : CallOutcome String)
    (balanceCall : CallOutcome String) : ℚ × Option GoError :=
  match WalletFetcher.fetchEthPrice priceCall with
  | (_, some e) => (0, some e)
  | (ethUSD, none) =>
      match balanceCall with
      | .transportErr m => (0, some (.wrap "failed to fetch wallet balance" (.errorf m)))
      | .response status result =>
          if ¬ isSuccess status then
            (0, some (.errorf ("etherscan API returned status " ++ toString status)))
          else if result = "" then
            (0, some (.errorf "balance not found in response"))
          else
            match bigIntSetString10 result with
            | none => (0, some (.errorf ("failed to parse balance: " ++ result)))
            | some wei => ((wei : ℚ) / weiPerEth * ethUSD, none)

/-- `WalletFetcher.Key`: `fmt.Sprintf("fetcher:etherscan:%s", f.address)`. -/
def WalletFetcher.Key (address : String) : String :=
  "fetcher:etherscan:" ++ address

/-! ## Stock quote fetcher (alphavantage package)

The only body field the code reads is `GlobalQuote.Price` (absent decodes
to `""`).  The fetcher first waits on the rate limiter; `waitErr` is the
error that wait returned, if any. -/

/-- `StockFetcher.Fetch` for a ticker. -/
def StockFetcher.Fetch (ticker : String) (waitErr : Option GoError)
    (call : CallOutcome String) : ℚ × Option GoError :=
  match waitErr with
  | some e => (0, some (NewTimeoutError e))
  | none =>
      match call with
      | .transportErr m => (0, some (NewNetworkError (.errorf m)))
      | .response status price =>
          if ¬ isSuccess status then
            (0, some (.wrap ("failed to fetch stock price for " ++ ticker)
              (.fetchErr (ClassifyHTTPError status) .nil)))
          else if price = "" then
            (0, some (NewValidationError ("price not found in response for " ++ ticker)))
          else
            match parseFloatQ price with
            | none => (0, some (NewValidationError "failed to parse stock price"))
            | some p => (p, none)

/-- `StockFetcher.Key`: `fmt.Sprintf("fetcher:alphavantage:%s", f.ticker)`. -/
def StockFetcher.Key (ticker : String) : String :=
  "fetcher:alphavantage:" ++ ticker

/-! ## Property valuation fetcher (rentcast package)

The only body field the code reads is the top-level `price` float64 (absent
decodes to `0`). -/

/-- `PropertyFetcher.Fetch` for an address. -/
def PropertyFetcher.Fetch (address : String) (waitErr : Option GoError)
    (call : CallOutcome ℚ) : ℚ × Option GoError :=
  match waitErr with
  | some e => (0, some (NewTimeoutError e))
  | none =>
      match call with
      | .transportErr m => (0, some (NewNetworkError (.errorf m)))
      | .response status price =>
          if ¬ isSuccess status then
            (0, some (.wrap ("failed to fetch property valuation for " ++ address)
              (.fetchErr (ClassifyHTTPError status) .nil)))
          else if price = 0 then
            (0, some (NewValidationError ("price not found in response for " ++ address)))
          else
            (price, none)

/-- `strings.ToLower` restricted to ASCII (the only case change the inputs
considered here need): uppercase letters shift down by 32. -/
def goLowerChar (c : Char) : Char :=
  if 65 ≤ c.toNat ∧ c.toNat ≤ 90 then Char.ofNat (c.toNat + 32) else c

/-- The address stub built by `PropertyFetcher.Key`: replace every space by
an underscore (`strings.ReplaceAll` with a one-character pattern is a
character map), lowercase, then delete every comma. -/
def rentcastAddressStub (address : String) : String :=
  String.mk ((((address.data.map fun c => if c = ' ' then '_' else c).map
    goLowerChar).filter fun c => c ≠ ','))

/-- `PropertyFetcher.Key`: `fmt.Sprintf("fetcher:rentcast:%s", addressStub)`. -/
def PropertyFetcher.Key (address : String) : String :=
  "fetcher:rentcast:" ++ rentcastAddressStub address

/-- Key normalization exactly as the specification words it, character by
character: commas are removed, spaces become underscores, everything else
is lowercased. -/
def specNormalizeChar (c : Char) : List Char :=
  if c = ',' then []
  else if c = ' ' then ['_']
  else [goLowerChar c]

/-- The whole-identifier normalization the specification describes. -/
def specNormalize (address : String) : String :=
  String.mk (address.data.flatMap specNormalizeChar)

/-! ## Rate limiter (ratelimit package)

The limiter holds one token bucket per API name, and `Wait`/`Allow` look
the bucket up first.  The bucket internals live in `golang.org/x/time/rate`
(outside this repository), so a bucket is modelled by its configuration
and by the outcome its own `Wait`/`Allow` would produce at the observed
instant. -/

/-- One `rate.Limiter` token bucket: its configured rate (tokens/second,
`none` models `rate.Inf`) and burst, together with the outcome of its own
`Allow` probe and of its own `Wait` (`none` = token acquired). -/
structure RateBucket where
  limit : Option ℚ
  burst : Nat
  allowResult : Bool
  waitResult : Option GoError
deriving Repr

/-- The `Limiter`: a map from API name to its bucket, if registered. -/
structure Limiter where
  limiters : String → Option RateBucket

/-- `Limiter.Wait`: look the bucket up; an unregistered API is allowed
through with no error and no blocking, otherwise defer to the bucket. -/
def Limiter.Wait (l : Limiter) (api : String) : Option GoError :=
  match l.limiters api with
  | none => none
  | some bucket => bucket.waitResult

/-- `Limiter.Allow`: look the bucket up; an unregistered API is allowed,
otherwise defer to the bucket. -/
def Limiter.Allow (l : Limiter) (api : String) : Bool :=
  match l.limiters api with
  | none => true
  | some bucket => bucket.allowResult

/-- The production configuration from `initLimiters` (etherscan 4/s,
alphavantage 1 per 12 s, rentcast 10/s, all with burst 1), with the given
per-bucket probe outcomes. -/
def productionLimiter (eth av rc : Bool × Option GoError) : Limiter :=
  ⟨fun api =>
    if api = "etherscan" then some ⟨some 4, 1, eth.1, eth.2⟩
    else if api = "alphavantage" then some ⟨some (1 / 12), 1, av.1, av.2⟩
    else if api = "rentcast" then some ⟨some 10, 1, rc.1, rc.2⟩
    else none⟩

/-! ## Coordinator

`Coordinator.Run` launches one goroutine per fetcher, each of which sends
exactly one `Result` on a channel sized to hold them all, and then drains
the channel.  Within one run each fetcher's `Fetch` is invoked exactly
once, so a fetch unit is modelled by its key and that invocation's
outcome; the multiset of results deposited on the channel is modelled as a
list in submission order (arrival order is unspecified). -/

/-- A fetch unit as the coordinator sees it in one run: its key and the
`(value, error)` pair its single `Fetch` invocation produces. -/
structure FetchUnit where
  key : String
  fetchResult : ℚ × Option GoError

/-- `Result` from the fetcher package. -/
structure Result where
  key : String
  value : ℚ
  error : Option GoError

/-- `Coordinator.Run`: error out on an empty fetcher list before any work,
otherwise collect one `Result` per fetcher.  (The Go code prints each
result as it is drained and returns `nil`; the collected list stands for
the drained results.) -/
def Coordinator.Run (fetchers : List FetchUnit) : Except String (List Result) :=
  if fetchers.length = 0 then .error "no fetchers configured"
  else .ok (fetchers.map fun f => ⟨f.key, f.fetchResult.1, f.fetchResult.2⟩)

/-- The taxonomy tag of an error, when the error is a tagged `FetchError`. -/
def errorTypeOf : Option GoError → Option ErrorType
  | some (.fetchErr e _) => some e.type
  | _ => none

/-! ## Theorems -/

/-- C1: for every non-empty fetcher list, `Coordinator.Run` returns no
orchestrator-level error and produces exactly one outcome per unit (the
keys of the results are exactly the keys of the units, in particular never
fewer results), regardless of which units fail; for the empty list it
reports the configuration error `no fetchers configured` and produces no
outcomes. -/
theorem coordinator_run_one_outcome_per_unit :
    (∀ fetchers : List FetchUnit, fetchers ≠ [] →
      ∃ results, Coordinator.Run fetchers = .ok results ∧
        results.length = fetchers.length ∧
        results.map Result.key = fetchers.map FetchUnit.key) ∧
    Coordinator.Run [] = .error "no fetchers configured" := by
  constructor
  · intro fs h
    refine ⟨fs.map fun f => ⟨f.key, f.fetchResult.1, f.fetchResult.2⟩, ?_, by simp, by simp⟩
    have hlen : ¬ fs.length = 0 := by simpa [List.length_eq_zero] using h
    simp only [Coordinator.Run, if_neg hlen]
  · rfl

/-- Witness for C1: a two-unit run, one unit failing, still yields two
outcomes with the units' keys and no orchestrator error. -/
theorem coordinator_run_one_outcome_per_unit_witness :
    ∃ results,
      Coordinator.Run [⟨"fetcher:alphavantage:AAPL", (1, none)⟩,
        ⟨"fetcher:rentcast:x", (0, some (.errorf "fetch failed"))⟩] = .ok results ∧
      results.length = 2 ∧
      results.map Result.key =
        ["fetcher:alphavantage:AAPL", "fetcher:rentcast:x"] :=
  coordinator_run_one_outcome_per_unit.1
    [⟨"fetcher:alphavantage:AAPL", (1, none)⟩,
      ⟨"fetcher:rentcast:x", (0, some (.errorf "fetch failed"))⟩] (by simp)

/-- C2: `ClassifyHTTPError` is a pure function of the status code mapping
429 to a retryable RateLimit error, >= 500 to a retryable Server error,
other 400-499 to a non-retryable Client error, and everything else to a
non-retryable Unknown error — exactly the specification's table. -/
theorem classifyHTTPError_matches_spec (statusCode : Int) :
    ((ClassifyHTTPError statusCode).type, (ClassifyHTTPError statusCode).retryable)
      = classifySpec statusCode := by
  unfold ClassifyHTTPError classifySpec NewRateLimitError NewServerError NewClientError
  split_ifs <;> first | rfl | omega

/-- Witness for C2 (the binder is not a hypothesis, but the table is worth
pinning at the statuses the spec names): 429, 503, 404 and 200. -/
theorem classifyHTTPError_matches_spec_witness :
    ((ClassifyHTTPError 429).type, (ClassifyHTTPError 429).retryable) = (.rateLimit, true) ∧
    ((ClassifyHTTPError 503).type, (ClassifyHTTPError 503).retryable) = (.server, true) ∧
    ((ClassifyHTTPError 404).type, (ClassifyHTTPError 404).retryable) = (.client, false) ∧
    ((ClassifyHTTPError 200).type, (ClassifyHTTPError 200).retryable) = (.unknown, false) :=
  ⟨classifyHTTPError_matches_spec 429, classifyHTTPError_matches_spec 503,
    classifyHTTPError_matches_spec 404, classifyHTTPError_matches_spec 200⟩

/-- C3: `retryCondition` is a pure function of transport-error presence
and status code equal to the specification's decision (retry on transport
error, on >= 500, on 429, on 408; never on any other status, in particular
not on other 4xx), and the default policy is 3 retries, 1 s initial
backoff, 10 s backoff cap. -/
theorem retryCondition_matches_spec :
    (∀ transportErr statusCode, retryCondition transportErr statusCode
      = retrySpec transportErr statusCode) ∧
    defaultRetryCount = 3 ∧ defaultRetryWaitTimeSeconds = 1 ∧
    defaultRetryMaxWaitTimeSeconds = 10 := by
  refine ⟨?_, rfl, rfl, rfl⟩
  intro e s
  unfold retryCondition retrySpec
  cases e <;> split_ifs <;> simp_all

/-- C8: for every source name with no registered bucket, `Limiter.Wait`
returns no error (it does not consult any bucket, hence never blocks) and
`Limiter.Allow` returns true. -/
theorem limiter_unknown_source_permitted (l : Limiter) (api : String)
    (h : l.limiters api = none) :
    l.Wait api = none ∧ l.Allow api = true := by
  simp [Limiter.Wait, Limiter.Allow, h]

/-- Witness for C8: against the production configuration (etherscan,
alphavantage, rentcast registered), the unregistered source `guideline` is
permitted by both `Wait` and `Allow`. -/
theorem limiter_unknown_source_permitted_witness :
    (productionLimiter (false, none) (false, none) (false, none)).Wait "guideline" = none ∧
    (productionLimiter (false, none) (false, none) (false, none)).Allow "guideline" = true :=
  limiter_unknown_source_permitted _ "guideline" rfl

/-- C4: on a successful pair of calls the wallet value is the balance
string parsed as an arbitrary-precision integer, divided by `10^18`,
multiplied by the reference price; in particular balance
`1000000000000000000` at price 2000.50 yields 2000.50 and balance
`100000000000000000000` at price 3500.00 yields 350000.00. -/
theorem walletFetcher_balance_conversion :
    (∀ priceStr balanceStr price wei,
      parseFloatQ priceStr = some price → priceStr ≠ "" →
      bigIntSetString10 balanceStr = some wei → balanceStr ≠ "" →
      WalletFetcher.Fetch (.response 200 priceStr) (.response 200 balanceStr)
        = ((wei : ℚ) / 10 ^ 18 * price, none)) ∧
    WalletFetcher.Fetch (.response 200 "2000.50") (.response 200 "1000000000000000000")
      = ((2000.50 : ℚ), none) ∧
    WalletFetcher.Fetch (.response 200 "3500.00") (.response 200 "100000000000000000000")
      = ((350000.00 : ℚ), none) := by
  refine ⟨?_, ?_, ?_⟩
  · intro ps bs p w hp hps hb hbs
    unfold WalletFetcher.Fetch WalletFetcher.fetchEthPrice
    simp [isSuccess, hps, hbs, hp, hb, weiPerEth]
  · simp [WalletFetcher.Fetch, WalletFetcher.fetchEthPrice, isSuccess, parseFloatQ,
      show parseDecimal "2000.50" = some (200050, 2) from by decide,
      show bigIntSetString10 "1000000000000000000" = some 1000000000000000000 from by decide,
      weiPerEth]
    norm_num
  · simp [WalletFetcher.Fetch, WalletFetcher.fetchEthPrice, isSuccess, parseFloatQ,
      show parseDecimal "3500.00" = some (350000, 2) from by decide,
      show bigIntSetString10 "100000000000000000000" = some 100000000000000000000
        from by decide,
      weiPerEth]
    norm_num

/-- Witness for C4: the general conversion law applied at the concrete
balance `1000000000000000000` and price string `2000.50`. -/
theorem walletFetcher_balance_conversion_witness :
    WalletFetcher.Fetch (.response 200 "2000.50") (.response 200 "1000000000000000000")
      = ((((1000000000000000000 : Int) : ℚ)) / 10 ^ 18 *
          (((200050 : Int) : ℚ) / 10 ^ 2), none) :=
  walletFetcher_balance_conversion.1 "2000.50" "1000000000000000000"
    (((200050 : Int) : ℚ) / 10 ^ 2) 1000000000000000000
    (by simp [parseFloatQ, show parseDecimal "2000.50" = some (200050, 2) from by decide])
    (by decide) (by decide) (by decide)

/-- C5: for a 200-status response the quote adapter returns the parsed
price on a well-formed price field (in particular `178.23` yields 178.23)
and a Validation-classified error when the field is absent (decodes to the
empty string) or not parseable; the valuation adapter returns 0 together
with a Validation-classified error, never a success, when the top-level
price is zero (an absent field decodes to 0). -/
theorem quote_and_valuation_validation :
    (∀ ticker priceStr p, parseFloatQ priceStr = some p → priceStr ≠ "" →
      StockFetcher.Fetch ticker none (.response 200 priceStr) = (p, none)) ∧
    StockFetcher.Fetch "AAPL" none (.response 200 "178.23") = ((178.23 : ℚ), none) ∧
    (∀ ticker, errorTypeOf (StockFetcher.Fetch ticker none (.response 200 "")).2
      = some .validation) ∧
    (∀ ticker priceStr, parseFloatQ priceStr = none →
      errorTypeOf (StockFetcher.Fetch ticker none (.response 200 priceStr)).2
        = some .validation) ∧
    (∀ address, PropertyFetcher.Fetch address none (.response 200 0)
      = (0, some (NewValidationError ("price not found in response for " ++ address)))) := by
  refine ⟨?_, ?_, ?_, ?_, ?_⟩
  · intro t ps p hp hps
    unfold StockFetcher.Fetch
    simp [isSuccess, hps, hp]
  · simp [StockFetcher.Fetch, isSuccess, parseFloatQ,
      show parseDecimal "178.23" = some (17823, 2) from by decide]
    norm_num
  · intro t
    simp [StockFetcher.Fetch, isSuccess, NewValidationError, errorTypeOf]
  · intro t ps hp
    unfold StockFetcher.Fetch
    by_cases hps : ps = ""
    · simp [hps, isSuccess, NewValidationError, errorTypeOf]
    · simp [isSuccess, hps, hp, NewValidationError, errorTypeOf]
  · intro addr
    simp [PropertyFetcher.Fetch, isSuccess]

/-- Witness for C5: the parse law at price string `178.23`, the
non-parseable branch at `not-a-number`, and the zero-price valuation
branch at a concrete address. -/
theorem quote_and_valuation_validation_witness :
    StockFetcher.Fetch "AAPL" none (.response 200 "178.23")
      = (((17823 : Int) : ℚ) / 10 ^ 2, none) ∧
    errorTypeOf (StockFetcher.Fetch "AAPL" none (.response 200 "not-a-number")).2
      = some .validation :=
  ⟨quote_and_valuation_validation.1 "AAPL" "178.23" (((17823 : Int) : ℚ) / 10 ^ 2)
      (by simp [parseFloatQ, show parseDecimal "178.23" = some (17823, 2) from by decide])
      (by decide),
    quote_and_valuation_validation.2.2.2.1 "AAPL" "not-a-number"
      (by simp [parseFloatQ, show parseDecimal "not-a-number" = none from by decide])⟩

/-- Lowercasing never turns a non-comma character into a comma: an ASCII
uppercase letter shifts into the lowercase range, far from `,`. -/
theorem goLowerChar_ne_comma {c : Char} (h : c ≠ ',') : goLowerChar c ≠ ',' := by
  unfold goLowerChar
  split
  · rename_i hc
    obtain ⟨h1, h2⟩ := hc
    generalize c.toNat = n at h1 h2
    interval_cases n <;> decide
  · exact h

/-- The composed pipeline of `PropertyFetcher.Key` (replace spaces, then
lowercase, then delete commas) acts character by character exactly as the
specification's normalization. -/
theorem stub_chars_eq (l : List Char) :
    (((l.map fun c => if c = ' ' then '_' else c).map goLowerChar).filter
      fun c => c ≠ ',') = l.flatMap specNormalizeChar := by
  induction l with
  | nil => rfl
  | cons c l ih =>
    by_cases h1 : c = ' '
    · subst h1
      simpa [specNormalizeChar, goLowerChar] using ih
    · by_cases h2 : c = ','
      · subst h2
        simpa [specNormalizeChar, goLowerChar, h1] using ih
      · simpa [specNormalizeChar, h1, h2, goLowerChar_ne_comma h2] using ih

/-- C7: for every address, the rentcast key is the `fetcher:rentcast:`
prefix followed by the address normalized exactly as specified — lowercase,
every space replaced by `_`, every comma removed — and in particular the
key for `5500 Grand Lake Dr, San Antonio, TX 78244` ends in
`5500_grand_lake_dr_san_antonio_tx_78244`. -/
theorem rentcast_key_normalization :
    (∀ address, PropertyFetcher.Key address
      = "fetcher:rentcast:" ++ specNormalize address) ∧
    "5500_grand_lake_dr_san_antonio_tx_78244".data.isSuffixOf
      (PropertyFetcher.Key "5500 Grand Lake Dr, San Antonio, TX 78244").data = true := by
  constructor
  · intro addr
    unfold PropertyFetcher.Key rentcastAddressStub specNormalize
    rw [stub_chars_eq]
  · decide

/-- Counterexample for C6: the code prefixes every key with `fetcher:`, so
a wallet unit for address `0xAbC` yields `fetcher:etherscan:0xAbC`, not the
claimed `etherscan:0xAbC`, and a quote unit for `AAPL` yields
`fetcher:alphavantage:AAPL`, not `alphavantage:AAPL`. -/
theorem key_source_prefix_counterexample :
    WalletFetcher.Key "0xAbC" = "fetcher:etherscan:0xAbC" ∧
    WalletFetcher.Key "0xAbC" ≠ "etherscan:0xAbC" ∧
    StockFetcher.Key "AAPL" = "fetcher:alphavantage:AAPL" ∧
    StockFetcher.Key "AAPL" ≠ "alphavantage:AAPL" := by
  refine ⟨rfl, by decide, rfl, by decide⟩

/-- C6 as amended: `key()` is total (a pure Lean function), uses `:` as the
hierarchy separator, and has the format `fetcher:source:identifier`; the
wallet key for `0xAbC` is `fetcher:etherscan:0xAbC` and the quote key for
`AAPL` is `fetcher:alphavantage:AAPL`. -/
theorem key_format_amended :
    (∀ address, WalletFetcher.Key address = "fetcher:etherscan:" ++ address) ∧
    (∀ ticker, StockFetcher.Key ticker = "fetcher:alphavantage:" ++ ticker) ∧
    (WalletFetcher.Key "0xAbC").data.splitOn ':'
      = ["fetcher".data, "etherscan".data, "0xAbC".data] ∧
    (StockFetcher.Key "AAPL").data.splitOn ':'
      = ["fetcher".data, "alphavantage".data, "AAPL".data] := by
  refine ⟨fun _ => rfl, fun _ => rfl, by decide, by decide⟩

/-- Shape of every stock-fetch outcome: either no error, or a tagged error
together with a zero value. -/
theorem stockFetch_shape (ticker : String) (waitErr : Option GoError)
    (call : CallOutcome String) :
    (StockFetcher.Fetch ticker waitErr call).2 = none ∨
    ((StockFetcher.Fetch ticker waitErr call).1 = 0 ∧
      ∃ e, (StockFetcher.Fetch ticker waitErr call).2 = some e ∧
        e.isOrWrapsFetchError = true) := by
  unfold StockFetcher.Fetch
  rcases waitErr with _ | werr
  · rcases call with m | ⟨status, price⟩
    · exact Or.inr ⟨rfl, _, rfl, rfl⟩
    · repeat' split
      all_goals first
        | exact Or.inl rfl
        | exact Or.inr ⟨rfl, _, rfl, rfl⟩
  · exact Or.inr ⟨rfl, _, rfl, rfl⟩

/-- Shape of every property-fetch outcome: either no error, or a tagged
error together with a zero value. -/
theorem propertyFetch_shape (address : String) (waitErr : Option GoError)
    (call : CallOutcome ℚ) :
    (PropertyFetcher.Fetch address waitErr call).2 = none ∨
    ((PropertyFetcher.Fetch address waitErr call).1 = 0 ∧
      ∃ e, (PropertyFetcher.Fetch address waitErr call).2 = some e ∧
        e.isOrWrapsFetchError = true) := by
  unfold PropertyFetcher.Fetch
  rcases waitErr with _ | werr
  · rcases call with m | ⟨status, price⟩
    · exact Or.inr ⟨rfl, _, rfl, rfl⟩
    · repeat' split
      all_goals first
        | exact Or.inl rfl
        | exact Or.inr ⟨rfl, _, rfl, rfl⟩
  · exact Or.inr ⟨rfl, _, rfl, rfl⟩

/-- Shape of every wallet-fetch outcome: either no error, or a zero value
(the wallet errors are not tagged, see the C9 counterexample). -/
theorem walletFetch_shape (priceCall balanceCall : CallOutcome String) :
    (WalletFetcher.Fetch priceCall balanceCall).2 = none ∨
    (WalletFetcher.Fetch priceCall balanceCall).1 = 0 := by
  unfold WalletFetcher.Fetch
  rcases hpe : WalletFetcher.fetchEthPrice priceCall with ⟨v, _ | e⟩
  · rcases balanceCall with m | ⟨status, result⟩
    · exact Or.inr rfl
    · repeat' split
      all_goals first
        | exact Or.inl rfl
        | exact Or.inr rfl
  · exact Or.inr rfl

/-- Counterexample for C9: when the wallet price call comes back with
status 500, the wallet fetch fails with a plain formatted error that
neither is nor wraps a tagged `FetchError`. -/
theorem wallet_untagged_error_counterexample :
    (WalletFetcher.Fetch (.response 500 "") (.response 200 "1")).2.map
      GoError.isOrWrapsFetchError = some false := by decide

/-- C9 as amended: every failing stock-fetch and property-fetch invocation
returns an error that is or wraps a tagged `FetchError` from the taxonomy;
the wallet fetcher is the exception — its failures are plain `fmt.Errorf`
errors carrying no tag. -/
theorem fetch_errors_tagged_amended :
    (∀ ticker waitErr call e,
      (StockFetcher.Fetch ticker waitErr call).2 = some e →
        e.isOrWrapsFetchError = true) ∧
    (∀ address waitErr call e,
      (PropertyFetcher.Fetch address waitErr call).2 = some e →
        e.isOrWrapsFetchError = true) := by
  constructor
  · intro t w c e h
    rcases stockFetch_shape t w c with h0 | ⟨_, e', he', ht⟩
    · rw [h0] at h; cases h
    · rw [he'] at h
      cases Option.some.inj h
      exact ht
  · intro a w c e h
    rcases propertyFetch_shape a w c with h0 | ⟨_, e', he', ht⟩
    · rw [h0] at h; cases h
    · rw [he'] at h
      cases Option.some.inj h
      exact ht

/-- Witness for the amended C9: a stock fetch rejected with status 404
fails with an error wrapping a tagged Client `FetchError`. -/
theorem fetch_errors_tagged_amended_witness :
    (GoError.wrap "failed to fetch stock price for AAPL"
      (.fetchErr (ClassifyHTTPError 404) .nil)).isOrWrapsFetchError = true :=
  fetch_errors_tagged_amended.1 "AAPL" none (.response 404 "") _ (by decide)

/-- C10: for every fetch invocation of any of the three fetchers that
returns a non-nil error, the value returned alongside the error is exactly
0. -/
theorem failing_fetch_returns_zero :
    (∀ ticker waitErr call, (StockFetcher.Fetch ticker waitErr call).2.isSome = true →
      (StockFetcher.Fetch ticker waitErr call).1 = 0) ∧
    (∀ priceCall balanceCall,
      (WalletFetcher.Fetch priceCall balanceCall).2.isSome = true →
        (WalletFetcher.Fetch priceCall balanceCall).1 = 0) ∧
    (∀ address waitErr call,
      (PropertyFetcher.Fetch address waitErr call).2.isSome = true →
        (PropertyFetcher.Fetch address waitErr call).1 = 0) := by
  refine ⟨?_, ?_, ?_⟩
  · intro t w c h
    rcases stockFetch_shape t w c with h0 | ⟨h0, _⟩
    · rw [h0] at h; cases h
    · exact h0
  · intro pc bc h
    rcases walletFetch_shape pc bc with h0 | h0
    · rw [h0] at h; cases h
    · exact h0
  · intro a w c h
    rcases propertyFetch_shape a w c with h0 | ⟨h0, _⟩
    · rw [h0] at h; cases h
    · exact h0

/-- Witness for C10: a stock fetch failing on status 500, a wallet fetch
failing on a transport error, and a property fetch failing on a zero price
all return the value 0. -/
theorem failing_fetch_returns_zero_witness :
    (StockFetcher.Fetch "AAPL" none (.response 500 "")).1 = 0 ∧
    (WalletFetcher.Fetch (.transportErr "connection refused") (.response 200 "1")).1 = 0 ∧
    (PropertyFetcher.Fetch "addr" none (.response 200 0)).1 = 0 :=
  ⟨(failing_fetch_returns_zero.1 "AAPL" none (.response 500 "") (by decide)),
    (failing_fetch_returns_zero.2.1 (.transportErr "connection refused")
      (.response 200 "1") (by decide)),
    (failing_fetch_returns_zero.2.2 "addr" none (.response 200 0) (by rfl))⟩

end FinanceFetcher
